import Mathlib

/-!
Shallow embedding of the reqtracker dependency-discovery core
(`reqtracker/core.py`, `reqtracker/tracker.py`, `reqtracker/output.py`,
`reqtracker/config.py`, `reqtracker/__init__.py`, and the import-name
mapping table `src/reqtracker/mappings.py`), together with theorems
settling the specification claims about it.

Modelling conventions:
* A resolved filesystem path is a list of components (`PyPath`);
  `pathlib.Path.is_relative_to` becomes a component-prefix test.
* The interpreter and filesystem state that the code consults
  (`sys.builtin_module_names`, `sys.stdlib_module_names`, `sys.modules`,
  `sys.path` candidates, `os.walk` results) is gathered in a `PyEnv`
  record; the source functions become pure functions of that record.
* Python exceptions are explicit values: fallible steps return
  `Except`/`Option`, and the `try/except/finally` control flow of
  `Reqtracker.track` and of the module-level `track()` is spelled out as
  a case analysis on those values.  Abstract fault oracles
  (`prep_fault`, `fin_fault`, `config_fault`) stand for exceptions
  raised by the interpreter inside the corresponding regions.
* The process-wide mutable globals of `tracker.py` (`_tracked_modules`,
  `_reqtracker_finder`, `_original_meta_path`, `sys.meta_path`) form a
  `TrackerState` record threaded through the functions.
-/

/-- A resolved filesystem path, as its list of components. -/
abbrev PyPath := List String

/-- `pathlib.Path.is_relative_to`: `p` lies under `base`. -/
def is_relative_to (p base : PyPath) : Bool :=
  base.isPrefixOf p

/-- One import statement as seen by `ast.NodeVisitor`: a plain
`import a, b.c` carries the list of dotted alias names; a
`from X import ...` carries `node.module`, which is `none` for a
relative import with no explicit module (`from . import x`). -/
inductive ImportStmt where
  | imp (names : List String)
  | impFrom (module : Option String)
deriving DecidableEq

/-- `name.split('.')[0]`: the first dotted segment — the characters up
to the first dot, the whole string when it has none, which is exactly
what `split('.')[0]` yields (for the empty string included). -/
def firstSegment (s : String) : String :=
  ⟨s.data.takeWhile (fun c => c != '.')⟩

/-- `str.startswith(pre)`, computed structurally on the character
lists. -/
def strStartsWith (s pre : String) : Bool :=
  pre.data.isPrefixOf s.data

/-- `str.endswith(post)`, computed structurally on the character
lists. -/
def strEndsWith (s post : String) : Bool :=
  post.data.isSuffixOf s.data

/-- `c in s` for a single character, computed structurally. -/
def strContainsChar (s : String) (c : Char) : Bool :=
  s.data.contains c

/-- Code-point lexicographic comparison of character lists — the string
order Python's `sorted` uses. -/
def charsLe : List Char → List Char → Bool
  | [], _ => true
  | _ :: _, [] => false
  | a :: as, b :: bs =>
    if a.val < b.val then true
    else if b.val < a.val then false
    else charsLe as bs

/-- Python's string comparison `a <= b` (code-point lexicographic). -/
def strLe (a b : String) : Bool :=
  charsLe a.data b.data

/-- Python's `sorted` on a list of strings. -/
def sortedStrings (l : List String) : List String :=
  List.insertionSort (fun a b => strLe a b = true) l

/-- A Python `set` of module names, modelled as a duplicate-free list;
`set.add` is `List.insert`, membership is list membership, and the
list order is an artifact of the model (Python's set iteration order is
unspecified; the output stage sorts). -/
abbrev StrSet := List String

/-- `set.update(t)`: insert every element of `t` into `s`. -/
def setUnion (s t : StrSet) : StrSet :=
  t.foldl (fun u x => u.insert x) s

/-- The names `ImportVisitor` records for one statement
(`visit_Import` adds the first segment of every alias;
`visit_ImportFrom` adds the first segment of `node.module` when it is
set and nothing otherwise). -/
def visitStmt : ImportStmt → List String
  | .imp names => names.map firstSegment
  | .impFrom none => []
  | .impFrom (some m) => [firstSegment m]

/-- `ImportVisitor.imported_modules` after visiting a parsed tree. -/
def collectImports (stmts : List ImportStmt) : List String :=
  stmts.foldr (fun s acc => visitStmt s ++ acc) []

/-- A source file reached by the `os.walk` of `find_dependencies_static`:
its file name, the resolved path of its directory, and the outcome of
`ast.parse` on its text (`.error` models a syntax or encoding failure,
carrying the exception text). -/
structure PyFile where
  name : String
  dirPath : PyPath
  parsed : Except String (List ImportStmt)

/-- The interpreter and filesystem state consulted by the classifier and
the orchestration code:
* `builtin_module_names` — `sys.builtin_module_names`;
* `has_stdlib_module_names` — whether `sys.version_info >= (3, 10)`, so
  `sys.stdlib_module_names` exists;
* `stdlib_module_names` — `sys.stdlib_module_names`;
* `module_origin` — `_get_module_origin`: the resolved `__file__` of an
  already-loaded module, if any;
* `stdlib_dirs` / `site_packages_dirs` — the directories
  `_is_in_stdlib_path` derives from `sys.prefix`, `sys.base_prefix` and
  `sys.path`;
* `local_under_root` — whether the `sys.path` walk of
  `is_third_party_module` step 3 finds a `name.py` file or
  `name/__init__.py` package for the name that resolves under the
  configured project root;
* `loaded_modules` — the keys of `sys.modules`;
* `root_exists` — whether the configured project root exists;
* `files` — the files enumerated by `os.walk(project_root)`;
* `prep_fault` / `fin_fault` / `config_fault` — exception text when the
  interpreter raises inside `_prepare_tracking`'s snapshot step, inside
  `_finalize_tracking`/output after the tracker is disabled, or inside
  `ReqtrackerConfig(...)` construction; `none` when that region runs
  normally. -/
structure PyEnv where
  builtin_module_names : List String
  has_stdlib_module_names : Bool
  stdlib_module_names : List String
  module_origin : String → Option PyPath
  stdlib_dirs : List PyPath
  site_packages_dirs : List PyPath
  local_under_root : String → Bool
  loaded_modules : List String
  root_exists : Bool
  files : List PyFile
  prep_fault : Option String
  fin_fault : Option String
  config_fault : Option String

/-- `_is_in_stdlib_path`: the module path lies under one of the standard
library directories and not under any `site-packages`/`dist-packages`
directory of the search path. -/
def _is_in_stdlib_path (env : PyEnv) (module_path : PyPath) : Bool :=
  env.stdlib_dirs.any (fun std_dir =>
    is_relative_to module_path std_dir &&
    !(env.site_packages_dirs.any (fun sp_dir =>
        is_relative_to module_path sp_dir)))

/-- `is_third_party_module`: not a built-in, not standard library (by
`sys.stdlib_module_names` on 3.10+, by the `_is_in_stdlib_path`
heuristic on the loaded module's origin otherwise), and not found
locally under the project root by the `sys.path` walk. -/
def is_third_party_module (env : PyEnv) (module_name : String) : Bool :=
  if env.builtin_module_names.contains module_name then false
  else if env.has_stdlib_module_names then
    if env.stdlib_module_names.contains module_name then false
    else if env.local_under_root module_name then false
    else true
  else
    if (match env.module_origin module_name with
        | some p => _is_in_stdlib_path env p
        | none => false) then false
    else if env.local_under_root module_name then false
    else true

/-- The standard-library test actually performed by
`is_third_party_module` step 2: membership of
`sys.stdlib_module_names` on 3.10+, the path heuristic on the loaded
module's origin on older runtimes. -/
def stdlibCheck (env : PyEnv) (module_name : String) : Bool :=
  if env.has_stdlib_module_names then
    env.stdlib_module_names.contains module_name
  else
    match env.module_origin module_name with
    | some p => _is_in_stdlib_path env p
    | none => false

/-- The four-way classification outcome named by the spec. -/
inductive Classification where
  | builtin
  | stdlib
  | localModule
  | third_party
deriving DecidableEq

/-- The classifier as the spec's four-way outcome, computed by the same
checks in the same order as `is_third_party_module`: built-in first,
then the standard-library test, then the local-under-project-root
search, else third-party. -/
def classify (env : PyEnv) (module_name : String) : Classification :=
  if env.builtin_module_names.contains module_name then .builtin
  else if stdlibCheck env module_name then .stdlib
  else if env.local_under_root module_name then .localModule
  else .third_party

/-- The names one walked file's loop adds to the found set in
`find_dependencies_static`: nothing when its directory or its own path
is under an ignore path, when its name does not end in `.py`, or when
`ast.parse` failed; otherwise the collected import names that classify
as third-party and are not excluded. -/
def scanFileDeps (env : PyEnv) (ignore_paths : List PyPath)
    (exclude_modules : List String) (f : PyFile) : List String :=
  if ignore_paths.any (fun ip => is_relative_to f.dirPath ip) then []
  else if strEndsWith f.name ".py" then
    if ignore_paths.any (fun ip =>
        is_relative_to (f.dirPath ++ [f.name]) ip) then []
    else
      match f.parsed with
      | .ok tree =>
          (collectImports tree).filter (fun module_name =>
            is_third_party_module env module_name &&
            !(exclude_modules.contains module_name))
      | .error _ => []
  else []

/-- The warning lines one walked file contributes: exactly one
`Warning: Could not parse ...` line when the file was considered and
its parse failed. -/
def scanFileWarns (ignore_paths : List PyPath) (f : PyFile) :
    List String :=
  if ignore_paths.any (fun ip => is_relative_to f.dirPath ip) then []
  else if strEndsWith f.name ".py" then
    if ignore_paths.any (fun ip =>
        is_relative_to (f.dirPath ++ [f.name]) ip) then []
    else
      match f.parsed with
      | .ok _ => []
      | .error e =>
          ["Warning: Could not parse " ++ f.name ++
           ". Skipping. Error: " ++ e]
  else []

/-- `find_dependencies_static`: fold over the files enumerated by
`os.walk(project_root)` (passed as `project_files`), accumulating the
found third-party dependency set and the printed warnings. -/
def find_dependencies_static (env : PyEnv) (project_files : List PyFile)
    (ignore_paths : List PyPath) (exclude_modules : List String) :
    StrSet × List String :=
  project_files.foldl
    (fun acc f =>
      ((scanFileDeps env ignore_paths exclude_modules f).foldl
         (fun s module_name => s.insert module_name) acc.1,
       acc.2 ++ scanFileWarns ignore_paths f))
    ([], [])

/-- `get_current_third_party_modules`: walk `sys.modules`, skip names
starting with an underscore or containing a dot, keep the third-party,
non-excluded ones. -/
def get_current_third_party_modules (env : PyEnv)
    (exclude_modules : List String) : StrSet :=
  env.loaded_modules.foldl
    (fun acc module_name =>
      if strStartsWith module_name "_" ||
         strContainsChar module_name '.' then acc
      else if is_third_party_module env module_name &&
              !(exclude_modules.contains module_name) then
        acc.insert module_name
      else acc)
    []

/-- `filter_dependencies`: drop the explicitly excluded names. -/
def filter_dependencies (raw_dependencies : StrSet)
    (exclude_modules : List String) : StrSet :=
  raw_dependencies.filter
    (fun dep => !(exclude_modules.contains dep))

/-- An entry of `sys.meta_path`: either this tool's
`ReqtrackerMetaPathFinder` (with the constructor arguments it was built
from) or some other finder installed by the interpreter or by other
code. -/
inductive MetaPathEntry where
  | reqFinder (project_root : PyPath) (exclude_modules : List String)
  | other (id : Nat)
deriving DecidableEq

/-- The process-wide mutable state of `tracker.py`: `_tracked_modules`,
`sys.meta_path`, `_reqtracker_finder` and `_original_meta_path`. -/
structure TrackerState where
  tracked : StrSet
  meta_path : List MetaPathEntry
  finder : Option MetaPathEntry
  original_meta_path : Option (List MetaPathEntry)
deriving DecidableEq

/-- `ReqtrackerMetaPathFinder.find_spec`: the bookkeeping effect of one
intercepted import attempt on the tracked set (the method itself always
returns `None`, so loading is never altered).  Names whose top-level
segment starts with `reqtracker` are ignored; otherwise a
non-excluded, third-party top-level name is added. -/
def find_spec (env : PyEnv) (exclude_modules : List String)
    (tracked : StrSet) (fullname : String) : StrSet :=
  let top_level_module_name := firstSegment fullname
  if strStartsWith top_level_module_name "reqtracker" then tracked
  else if !(exclude_modules.contains top_level_module_name) &&
          is_third_party_module env top_level_module_name then
    tracked.insert top_level_module_name
  else tracked

/-- `enable_dynamic_tracking`: no-op when a finder is already installed;
otherwise snapshot `sys.meta_path`, build the finder and insert it at
the front. -/
def enable_dynamic_tracking (project_root : PyPath)
    (exclude_modules : List String) (st : TrackerState) : TrackerState :=
  match st.finder with
  | some _ => st
  | none =>
    let f := MetaPathEntry.reqFinder project_root exclude_modules
    { st with
        finder := some f,
        original_meta_path := some st.meta_path,
        meta_path := f :: st.meta_path }

/-- `disable_dynamic_tracking`: no-op when no finder is installed;
otherwise remove the finder from `sys.meta_path` (first occurrence, a
missing entry is tolerated), then, if the snapshot is held and the
resulting chain differs from it, replace the whole chain by the
snapshot; finally drop the finder and the snapshot. -/
def disable_dynamic_tracking (st : TrackerState) : TrackerState :=
  match st.finder with
  | none => st
  | some f =>
    let mp := st.meta_path.erase f
    let mp2 :=
      match st.original_meta_path with
      | some orig => if mp ≠ orig then orig else mp
      | none => mp
    { tracked := st.tracked,
      meta_path := mp2,
      finder := none,
      original_meta_path := none }

/-- `get_tracked_modules`: a copy of the tracked set. -/
def get_tracked_modules (st : TrackerState) : StrSet :=
  st.tracked

/-- `clear_tracked_modules`: empty the tracked set. -/
def clear_tracked_modules (st : TrackerState) : TrackerState :=
  { st with tracked := [] }

/-- The resolved configuration of one run (`ReqtrackerConfig`), after
layering defaults, the TOML file and the overrides. -/
structure ReqtrackerConfig where
  project_root : PyPath
  output_file : PyPath
  output_to_file : Bool
  print_to_console : Bool
  ignore_paths : List PyPath
  exclude_modules : List String
  mode : String
  include_dev : Bool
deriving DecidableEq

/-- The per-run state of a `Reqtracker` instance together with the
process-wide tracker state and the observable output channels:
`file_out` is the content written to the requirements file (if any),
`console` the lines printed. -/
structure RunState where
  tracker : TrackerState
  initial_loaded_modules : StrSet
  file_out : Option (List String)
  console : List String
deriving DecidableEq

/-- `write_requirements_file`: the lines written to the requirements
file — the dependency names sorted alphabetically, one per line, each
with a trailing newline, written exactly as given (no name mapping is
consulted). -/
def write_requirements_file (dependencies : StrSet) : List String :=
  (sortedStrings dependencies).map (fun dep => dep ++ "\n")

/-- `print_dependencies`: the lines printed to the console. -/
def print_dependencies (dependencies : StrSet) : List String :=
  ["--- Detected Dependencies ---"] ++
  (if dependencies.isEmpty then ["No third-party dependencies found."]
   else sortedStrings dependencies) ++
  ["-----------------------------"]

/-- `Reqtracker._prepare_tracking`: clear the tracked set, snapshot the
currently loaded third-party modules, then enable dynamic tracking.
The second component is the exception text when the snapshot step
raises (`env.prep_fault`), in which case the later steps do not run. -/
def _prepare_tracking (env : PyEnv) (cfg : ReqtrackerConfig)
    (st : RunState) : RunState × Option String :=
  let st1 : RunState := { st with tracker := clear_tracked_modules st.tracker }
  match env.prep_fault with
  | some e => (st1, some e)
  | none =>
    let st2 : RunState :=
      { st1 with initial_loaded_modules :=
          get_current_third_party_modules env cfg.exclude_modules }
    ({ st2 with tracker :=
        (enable_dynamic_tracking cfg.project_root cfg.exclude_modules
          st2.tracker) },
     none)

/-- `Reqtracker._finalize_tracking`: disable dynamic tracking, read the
tracked modules, run the static scan, union the three sources and apply
the exclude filter.  The `.error` case is an exception raised after the
tracker was disabled (`env.fin_fault`). -/
def _finalize_tracking (env : PyEnv) (cfg : ReqtrackerConfig)
    (st : RunState) : RunState × Except String StrSet :=
  let st1 : RunState := { st with tracker := disable_dynamic_tracking st.tracker }
  match env.fin_fault with
  | some e => (st1, .error e)
  | none =>
    let dynamically_tracked := get_tracked_modules st1.tracker
    let static_deps :=
      (find_dependencies_static env env.files cfg.ignore_paths
        cfg.exclude_modules).1
    let all_found :=
      setUnion (setUnion (setUnion [] static_deps)
        st1.initial_loaded_modules) dynamically_tracked
    (st1, .ok (filter_dependencies all_found cfg.exclude_modules))

/-- The body of the inner `try` in `Reqtracker.track`'s `finally`
block: finalize, then write the requirements file and print, as
configured.  The second component is the exception text when
finalization raised. -/
def finalize_and_output (env : PyEnv) (cfg : ReqtrackerConfig)
    (st : RunState) : RunState × Option String :=
  match _finalize_tracking env cfg st with
  | (st1, .error e) => (st1, some e)
  | (st1, .ok final_dependencies) =>
    ({ st1 with
        file_out :=
          if cfg.output_to_file then
            some (write_requirements_file final_dependencies)
          else st1.file_out,
        console :=
          if cfg.print_to_console then
            st1.console ++ print_dependencies final_dependencies
          else st1.console },
     none)

/-- A `ReqtrackerError` raised by `Reqtracker.track`, tagged with the
`raise` site that produced it: the prepare-time existence check, the
wrapper in the `except` around `_prepare_tracking`, or the wrapper in
the `except` around finalization/output. -/
inductive ReqErr where
  | rootMissing (project_root : PyPath)
  | duringPrep (msg : String)
  | duringFinal (msg : String)
deriving DecidableEq

/-- The message text of a `ReqtrackerError`, as formatted by the
source's f-strings. -/
def renderErr : ReqErr → String
  | .rootMissing root =>
      "Project root does not exist: " ++ String.intercalate "/" root
  | .duringPrep m => "Error during Reqtracker preparation: " ++ m
  | .duringFinal m =>
      "Error during Reqtracker finalization or output: " ++ m

/-- `Reqtracker.track`, with its `try/except/finally` made explicit:
raise at once if the project root does not exist; otherwise run
`_prepare_tracking` — if it raises, disable the tracker and hold the
wrapped preparation error; the `finally` block then runs finalization
and output in an inner `try` whose failure wraps and replaces any
pending error, and whose success lets the pending error (if any)
propagate. -/
def Reqtracker_track (env : PyEnv) (cfg : ReqtrackerConfig)
    (st : RunState) : RunState × Except ReqErr Unit :=
  if !env.root_exists then
    (st, .error (.rootMissing cfg.project_root))
  else
    match _prepare_tracking env cfg st with
    | (st1, some e) =>
      let st2 : RunState := { st1 with tracker := disable_dynamic_tracking st1.tracker }
      match finalize_and_output env cfg st2 with
      | (st3, none) => (st3, .error (.duringPrep e))
      | (st3, some e2) => (st3, .error (.duringFinal e2))
    | (st1, none) =>
      match finalize_and_output env cfg st1 with
      | (st3, none) => (st3, .ok ())
      | (st3, some e2) => (st3, .error (.duringFinal e2))

/-- The module-level global `_global_reqtracker_instance` together with
the run state it manages. -/
structure GlobalState where
  run : RunState
  instance_present : Bool
deriving DecidableEq

/-- The keyword arguments of the module-level `track()`. -/
structure TrackArgs where
  project_root : PyPath
  output_file : PyPath
  output_to_file : Bool
  print_to_console : Bool
  ignore_paths : List PyPath
  exclude_modules : List String
  mode : String
  include_dev : Bool
deriving DecidableEq

/-- The resolved `ReqtrackerConfig` built from the inline overrides of
one `track()` call (the TOML layering is inert here: overrides take
precedence over it for every key they set). -/
def configFromArgs (a : TrackArgs) : ReqtrackerConfig :=
  { project_root := a.project_root,
    output_file := a.output_file,
    output_to_file := a.output_to_file,
    print_to_console := a.print_to_console,
    ignore_paths := a.ignore_paths,
    exclude_modules := a.exclude_modules,
    mode := a.mode,
    include_dev := a.include_dev }

/-- The module-level `track()` entry point: if a previous instance
exists, disable tracking and clear the tracked set; then, inside a
`try` whose handlers catch both `ReqtrackerError` and every other
`Exception`, build the configuration, store the new instance and run
`Reqtracker.track`, printing any caught error.  The result is `.error`
exactly where the Python function would let an exception escape to its
caller, and `.ok` with the final global state and the printed error
lines otherwise. -/
def track (env : PyEnv) (args : TrackArgs) (gst : GlobalState) :
    Except String (GlobalState × List String) :=
  let gst1 : GlobalState :=
    if gst.instance_present then
      { gst with run := { gst.run with tracker :=
          (clear_tracked_modules
            (disable_dynamic_tracking gst.run.tracker)) } }
    else gst
  match env.config_fault with
  | some e => .ok (gst1, ["An unexpected error occurred: " ++ e])
  | none =>
    let cfg := configFromArgs args
    let gst2 : GlobalState := { gst1 with instance_present := true }
    match Reqtracker_track env cfg gst2.run with
    | (st, .ok _) => .ok ({ gst2 with run := st }, [])
    | (st, .error e) =>
        .ok ({ gst2 with run := st }, ["Error: " ++ renderErr e])

/-- `IMPORT_TO_PACKAGE` from `src/reqtracker/mappings.py`, verbatim. -/
def IMPORT_TO_PACKAGE : List (String × String) :=
  [("cv2", "opencv-python"),
   ("PIL", "Pillow"),
   ("skimage", "scikit-image"),
   ("sklearn", "scikit-learn"),
   ("scipy", "scipy"),
   ("numpy", "numpy"),
   ("pandas", "pandas"),
   ("flask", "Flask"),
   ("django", "Django"),
   ("fastapi", "fastapi"),
   ("MySQLdb", "mysqlclient"),
   ("psycopg2", "psycopg2-binary"),
   ("pymongo", "pymongo"),
   ("redis", "redis"),
   ("sqlalchemy", "SQLAlchemy"),
   ("yaml", "PyYAML"),
   ("bs4", "beautifulsoup4"),
   ("lxml", "lxml"),
   ("openpyxl", "openpyxl"),
   ("docx", "python-docx"),
   ("PyPDF2", "PyPDF2"),
   ("pytest", "pytest"),
   ("nose", "nose"),
   ("mock", "mock"),
   ("dotenv", "python-dotenv"),
   ("jwt", "PyJWT"),
   ("cryptography", "cryptography"),
   ("requests", "requests"),
   ("click", "click"),
   ("tqdm", "tqdm"),
   ("colorama", "colorama"),
   ("dateutil", "python-dateutil")]

/-- Modelled from the spec: the Name Mapper contract
`resolve(import_name) -> package_name` of §4.5 — a case-sensitive exact
lookup into `IMPORT_TO_PACKAGE`, returning the input unchanged on a
miss.  No function in this version's rendering path performs this
lookup; this definition exists to compare the spec's mapper against
what `write_requirements_file` actually emits. -/
def resolve_spec (import_name : String) : String :=
  match IMPORT_TO_PACKAGE.lookup import_name with
  | some pkg => pkg
  | none => import_name

/-- A tracker state in which this tool's hook is not installed in any
form: no finder object, no snapshot, and no `reqFinder` entry anywhere
in `sys.meta_path`. -/
def cleanTracker (t : TrackerState) : Prop :=
  t.finder = none ∧ t.original_meta_path = none ∧
  ∀ root ex, MetaPathEntry.reqFinder root ex ∉ t.meta_path

/-- A syntactically valid project file importing `requests`. -/
def goodFile : PyFile :=
  { name := "app.py", dirPath := ["proj"],
    parsed := .ok [.imp ["requests"]] }

/-- A project file whose parse fails with a syntax error. -/
def badFile : PyFile :=
  { name := "bad.py", dirPath := ["proj"],
    parsed := .error "invalid syntax" }

/-- A project file importing both the tool's own package and a genuine
third-party dependency. -/
def appFile : PyFile :=
  { name := "app.py", dirPath := ["proj"],
    parsed := .ok [.imp ["reqtracker"], .imp ["requests"]] }

/-- A small concrete interpreter environment: `sys` and `_ast` are
built-in, `os` and `json` are standard library (3.10+ name set
available), `myapp` resolves locally under the project root, everything
else is third-party. -/
def envA : PyEnv :=
  { builtin_module_names := ["sys", "_ast"],
    has_stdlib_module_names := true,
    stdlib_module_names := ["os", "json", "sys"],
    module_origin := fun _ => none,
    stdlib_dirs := [["usr", "lib", "python3.11"]],
    site_packages_dirs := [["usr", "lib", "python3.11", "site-packages"]],
    local_under_root := fun n => n == "myapp",
    loaded_modules := ["sys", "os", "requests", "_private", "pkg.sub"],
    root_exists := true,
    files := [],
    prep_fault := none,
    fin_fault := none,
    config_fault := none }

/-- `envA` with a project containing one valid file importing
`requests` and nothing pre-loaded. -/
def envC1 : PyEnv :=
  { envA with files := [goodFile], loaded_modules := [] }

/-- An environment in which the tool itself is installed outside the
project root (so it classifies as third-party), is already loaded, and
is imported by the scanned project file. -/
def envBug : PyEnv :=
  { envA with files := [appFile],
              loaded_modules := ["reqtracker", "os", "sys"] }

/-- `envC1` with an exception striking during the preparation
snapshot. -/
def envFault : PyEnv :=
  { envC1 with prep_fault := some "disk full" }

/-- `envC1` with a missing project root. -/
def envNoRoot : PyEnv :=
  { envC1 with root_exists := false }

/-- A resolved configuration in the default hybrid mode. -/
def cfgB : ReqtrackerConfig :=
  { project_root := ["proj"],
    output_file := ["proj", "requirements.txt"],
    output_to_file := true,
    print_to_console := false,
    ignore_paths := [],
    exclude_modules := [],
    mode := "hybrid",
    include_dev := false }

/-- `cfgB` with mode `static`. -/
def cfgStatic : ReqtrackerConfig := { cfgB with mode := "static" }

/-- `cfgB` with mode `dynamic`. -/
def cfgDynamic : ReqtrackerConfig := { cfgB with mode := "dynamic" }

/-- The call-site arguments matching `cfgB`. -/
def argsB : TrackArgs :=
  { project_root := ["proj"],
    output_file := ["proj", "requirements.txt"],
    output_to_file := true,
    print_to_console := false,
    ignore_paths := [],
    exclude_modules := [],
    mode := "hybrid",
    include_dev := false }

/-- A pristine run state: nothing tracked, an empty import-hook chain,
no snapshot, no outputs. -/
def st0 : RunState :=
  { tracker := { tracked := [], meta_path := [], finder := none,
                 original_meta_path := none },
    initial_loaded_modules := [],
    file_out := none,
    console := [] }

/-- A fresh global state with no previous instance. -/
def gst0 : GlobalState := { run := st0, instance_present := false }

/-- A global state left over from a previous run: an instance exists
and the tracked set is non-empty. -/
def gstPrev : GlobalState :=
  { run := { st0 with tracker := { st0.tracker with tracked := ["numpy"] } },
    instance_present := true }

/-- A tracker state with one foreign hook in the chain and no finder
installed. -/
def st4 : TrackerState :=
  { tracked := [], meta_path := [MetaPathEntry.other 0], finder := none,
    original_meta_path := none }

/-! ## Helper lemmas -/

/-- `disable_dynamic_tracking` never changes the tracked set. -/
theorem disable_tracked (t : TrackerState) :
    (disable_dynamic_tracking t).tracked = t.tracked := by
  unfold disable_dynamic_tracking
  cases h : t.finder <;> simp

/-- Removing an element absent from the first list of an append removes
it from the second. -/
theorem erase_append_of_not_mem {α : Type} [DecidableEq α] (a : α) :
    ∀ (l₁ l₂ : List α), a ∉ l₁ →
      (l₁ ++ l₂).erase a = l₁ ++ l₂.erase a := by
  intro l₁
  induction l₁ with
  | nil => intro l₂ _; rfl
  | cons b bs ih =>
    intro l₂ h
    have hba : ¬ (b = a) := fun e => h (e ▸ List.mem_cons_self b bs)
    rw [List.cons_append, List.erase_cons, if_neg, List.cons_append, ih]
    · exact fun hmem => h (List.mem_cons_of_mem b hmem)
    · simpa using hba

/-- The dependency half of the static-scan fold ignores the warning
accumulator. -/
theorem foldl_scan_fst (env : PyEnv) (ign : List PyPath)
    (ex : List String) :
    ∀ (files : List PyFile) (s : StrSet) (w : List String),
      (List.foldl (fun acc f =>
          ((scanFileDeps env ign ex f).foldl
             (fun t module_name => t.insert module_name) acc.1,
           acc.2 ++ scanFileWarns ign f)) (s, w) files).1
        = List.foldl (fun t f => (scanFileDeps env ign ex f).foldl
            (fun u module_name => u.insert module_name) t) s files := by
  intro files
  induction files with
  | nil => intro s w; rfl
  | cons f fs ih => intro s w; exact ih _ _

/-- Warnings already accumulated survive the rest of the static-scan
fold. -/
theorem foldl_scan_snd_mono (env : PyEnv) (ign : List PyPath)
    (ex : List String) :
    ∀ (files : List PyFile) (acc : StrSet × List String)
      (x : String), x ∈ acc.2 →
      x ∈ (List.foldl (fun acc f =>
             ((scanFileDeps env ign ex f).foldl
                (fun t module_name => t.insert module_name) acc.1,
              acc.2 ++ scanFileWarns ign f)) acc files).2 := by
  intro files
  induction files with
  | nil => intro acc x h; exact h
  | cons f fs ih =>
    intro acc x h
    exact ih _ x (List.mem_append_left _ h)

/-- A file whose parse failed contributes no dependency names. -/
theorem scanFileDeps_error (env : PyEnv) (ign : List PyPath)
    (ex : List String) (f : PyFile) (msg : String)
    (h : f.parsed = .error msg) :
    scanFileDeps env ign ex f = [] := by
  unfold scanFileDeps
  rw [h]
  split
  · rfl
  · split
    · split
      · rfl
      · rfl
    · rfl

/-! ## Claims -/

/-- C8: import extraction always reduces an import target to its first
dotted segment — `import a.b.c` contributes `a`, each comma-separated
target of a plain import contributes exactly one name (the first
segment of that target), `from X import ...` contributes the first
segment of `X`, and a relative from-import with no explicit module
contributes nothing. -/
theorem claim_C8 :
    (firstSegment "a.b.c" = "a") ∧
    (∀ s : String, visitStmt (.imp [s]) = [firstSegment s]) ∧
    (∀ names : List String,
       visitStmt (.imp names) = names.map firstSegment) ∧
    (∀ m : String, visitStmt (.impFrom (some m)) = [firstSegment m]) ∧
    (visitStmt (.impFrom none) = []) ∧
    (collectImports
       [.imp ["a.b.c"], .imp ["x", "y.z"], .impFrom (some "p.q"),
        .impFrom none] = ["a", "x", "y", "p"]) := by
  refine ⟨by decide, fun s => rfl, fun names => rfl, fun m => rfl, rfl,
    by decide⟩

/-- C3 counterexample: the rendering path does not apply the name
mapping — `{cv2}` renders as the line `cv2`, not `opencv-python`, even
though the import-to-package table maps `cv2` to `opencv-python`. -/
theorem claim_C3_counterexample :
    write_requirements_file ["cv2"] = ["cv2" ++ "\n"] ∧
    IMPORT_TO_PACKAGE.lookup "cv2" = some "opencv-python" ∧
    ("opencv-python" ++ "\n") ∉ write_requirements_file ["cv2"] := by
  refine ⟨by decide, by decide, by decide⟩

/-- C3 (amended): the import-to-package table exists and maps `cv2` to
`opencv-python` as a case-sensitive exact lookup that passes unknown
names such as `unknown_xyz` through unchanged, but requirements
rendering never consults it: every module name appears in the rendered
output exactly as given, one line per name with a trailing newline, and
nothing else appears. -/
theorem claim_C3 (deps : StrSet) :
    (∀ m ∈ deps, (m ++ "\n") ∈ write_requirements_file deps) ∧
    (∀ line ∈ write_requirements_file deps,
       ∃ m ∈ deps, line = m ++ "\n") ∧
    resolve_spec "cv2" = "opencv-python" ∧
    resolve_spec "unknown_xyz" = "unknown_xyz" := by
  refine ⟨?_, ?_, by decide, by decide⟩
  · intro m hm
    unfold write_requirements_file sortedStrings
    exact List.mem_map.mpr
      ⟨m, (List.perm_insertionSort _ deps).mem_iff.mpr hm, rfl⟩
  · intro line hl
    unfold write_requirements_file sortedStrings at hl
    rcases List.mem_map.mp hl with ⟨m, hm, rfl⟩
    exact ⟨m, (List.perm_insertionSort _ deps).mem_iff.mp hm, rfl⟩

/-- C3 witness: the amended statement evaluated at the concrete set
`{cv2}`. -/
theorem claim_C3_witness :
    ("cv2" ++ "\n") ∈ write_requirements_file ["cv2"] ∧
    resolve_spec "cv2" = "opencv-python" ∧
    resolve_spec "unknown_xyz" = "unknown_xyz" := by
  have h := claim_C3 ["cv2"]
  exact ⟨h.1 "cv2" (by decide), h.2.2.1, h.2.2.2⟩

/-- C9 counterexample: with an instance left over from a previous run,
the module-level `track()` disables tracking and clears the tracked set
before the project-root existence check, so a call with a missing root
still empties the process-wide tracked set. -/
theorem claim_C9_counterexample :
    gstPrev.run.tracker.tracked = ["numpy"] ∧
    (track envNoRoot argsB gstPrev).map
        (fun r => (r.1.run.tracker.tracked, r.2))
      = .ok ([], ["Error: Project root does not exist: proj"]) := by
  exact ⟨rfl, rfl⟩

/-- C9 (amended): within `Reqtracker.track` a missing project root is
fatal and detected before any state mutation — the method returns the
`rootMissing` error with the run state completely unchanged (tracked
set not cleared, no hook armed).  The module-level `track()`, however,
first resets state left over from a previous run (disable + clear)
before this check runs. -/
theorem claim_C9 (env : PyEnv) (cfg : ReqtrackerConfig) (st : RunState)
    (h : env.root_exists = false) :
    Reqtracker_track env cfg st
      = (st, .error (.rootMissing cfg.project_root)) := by
  unfold Reqtracker_track
  rw [h]
  rfl

/-- C9 witness: the amended statement at a concrete missing-root
environment. -/
theorem claim_C9_witness :
    Reqtracker_track envNoRoot cfgB st0
      = (st0, .error (.rootMissing ["proj"])) :=
  claim_C9 envNoRoot cfgB st0 rfl

/-- C10: the module-level `track()` never lets an exception escape to
its caller — every internal error (the missing-project-root
`ReqtrackerError` and any unexpected exception alike) is caught by its
handlers, reported as a printed line, and the call returns normally
(Python's `None`), so by exception or return value a failed run is
indistinguishable from a successful one. -/
theorem claim_C10 (env : PyEnv) (args : TrackArgs) (gst : GlobalState) :
    (track env args gst).isOk = true := by
  unfold track
  simp only []
  repeat' split
  all_goals rfl

/-- `is_third_party_module` agrees with the four-way classifier: it
returns `true` exactly on the `third_party` outcome. -/
theorem is_third_party_iff_classify (env : PyEnv) (n : String) :
    is_third_party_module env n = true ↔
      classify env n = .third_party := by
  unfold is_third_party_module classify stdlibCheck
  cases hb : env.builtin_module_names.contains n <;>
    cases hs : env.has_stdlib_module_names <;>
      cases ho : env.module_origin n <;>
        simp [hb, hs, ho] <;> split_ifs <;> simp_all

/-- C6: a name in the interpreter's built-in set classifies as
`builtin`, and a name in its known standard-library set (when the
runtime exposes one) classifies as `builtin` or `stdlib` — never as
third-party; the decision order is first-match-wins: built-in, then
the standard-library test (name-set membership on 3.10+, otherwise the
origin-path heuristic excluding site-packages/dist-packages), then
local-under-project-root, else third-party; and the boolean
`is_third_party_module` holds exactly on the third-party outcome. -/
theorem claim_C6 (env : PyEnv) (n : String) :
    (n ∈ env.builtin_module_names → classify env n = .builtin) ∧
    (env.has_stdlib_module_names = true →
       n ∈ env.stdlib_module_names →
       classify env n = .builtin ∨ classify env n = .stdlib) ∧
    ((n ∈ env.builtin_module_names ∨
        (env.has_stdlib_module_names = true ∧
         n ∈ env.stdlib_module_names)) →
       is_third_party_module env n = false) ∧
    (n ∉ env.builtin_module_names →
       stdlibCheck env n = true → classify env n = .stdlib) ∧
    (n ∉ env.builtin_module_names →
       stdlibCheck env n = false → env.local_under_root n = true →
       classify env n = .localModule) ∧
    (n ∉ env.builtin_module_names →
       stdlibCheck env n = false → env.local_under_root n = false →
       classify env n = .third_party) ∧
    (is_third_party_module env n = true ↔
       classify env n = .third_party) := by
  refine ⟨?_, ?_, ?_, ?_, ?_, ?_, is_third_party_iff_classify env n⟩
  · intro hb
    unfold classify
    simp [hb]
  · intro hs hm
    by_cases hb : n ∈ env.builtin_module_names
    · left
      unfold classify
      simp [hb]
    · right
      unfold classify stdlibCheck
      simp [hb, hs, hm]
  · intro hcase
    unfold is_third_party_module
    rcases hcase with hb | ⟨hs, hm⟩
    · simp [hb]
    · by_cases hb : n ∈ env.builtin_module_names
      · simp [hb]
      · simp [hb, hs, hm]
  · intro hb hsc
    unfold classify
    simp [hb, hsc]
  · intro hb hsc hl
    unfold classify
    simp [hb, hsc, hl]
  · intro hb hsc hl
    unfold classify
    simp [hb, hsc, hl]

/-- C6 witness: the classifier evaluated on the concrete environment
`envA`. -/
theorem claim_C6_witness :
    classify envA "sys" = .builtin ∧
    (classify envA "os" = .builtin ∨ classify envA "os" = .stdlib) ∧
    is_third_party_module envA "os" = false ∧
    classify envA "myapp" = .localModule ∧
    classify envA "requests" = .third_party := by
  refine ⟨(claim_C6 envA "sys").1 (by decide),
          (claim_C6 envA "os").2.1 (by decide) (by decide),
          (claim_C6 envA "os").2.2.1 (Or.inr ⟨by decide, by decide⟩),
          (claim_C6 envA "myapp").2.2.2.2.1 (by decide) (by decide)
            (by decide),
          (claim_C6 envA "requests").2.2.2.2.2.1 (by decide) (by decide)
            (by decide)⟩

/-- C7: a parse failure in a single source file never aborts the static
scan and is reported as a warning — deleting an unparseable file from
the walked list leaves the resulting dependency set unchanged (so a
directory with one valid file importing a third-party module and one
unparseable file still yields exactly the names collected from the
valid file), and when the unparseable file is a considered `.py` file
its warning line appears in the scan's warning output. -/
theorem claim_C7 (env : PyEnv) (ign : List PyPath) (ex : List String)
    (files₁ files₂ : List PyFile) (f : PyFile) (msg : String)
    (h : f.parsed = .error msg) :
    (find_dependencies_static env (files₁ ++ f :: files₂) ign ex).1
      = (find_dependencies_static env (files₁ ++ files₂) ign ex).1 ∧
    (ign.any (fun ip => is_relative_to f.dirPath ip) = false →
     strEndsWith f.name ".py" = true →
     ign.any (fun ip =>
       is_relative_to (f.dirPath ++ [f.name]) ip) = false →
     ("Warning: Could not parse " ++ f.name ++ ". Skipping. Error: " ++
        msg)
       ∈ (find_dependencies_static env (files₁ ++ f :: files₂)
            ign ex).2) := by
  constructor
  · unfold find_dependencies_static
    rw [foldl_scan_fst, foldl_scan_fst, List.foldl_append,
        List.foldl_append, List.foldl_cons,
        scanFileDeps_error env ign ex f msg h]
    rfl
  · intro h1 h2 h3
    have hw : scanFileWarns ign f =
        ["Warning: Could not parse " ++ f.name ++
         ". Skipping. Error: " ++ msg] := by
      unfold scanFileWarns
      simp [h1, h2, h3, h]
    unfold find_dependencies_static
    rw [List.foldl_append, List.foldl_cons]
    apply foldl_scan_snd_mono
    show _ ∈ _ ++ scanFileWarns ign f
    rw [hw]
    exact List.mem_append_right _ (List.mem_singleton_self _)

/-- C7 witness: a directory with one valid file importing `requests`
and one unparseable file yields the same set as the valid file alone,
with the warning emitted. -/
theorem claim_C7_witness :
    (find_dependencies_static envC1 [goodFile, badFile] [] []).1
      = (find_dependencies_static envC1 [goodFile] [] []).1 ∧
    ("Warning: Could not parse " ++ "bad.py" ++ ". Skipping. Error: " ++
       "invalid syntax")
      ∈ (find_dependencies_static envC1 [goodFile, badFile] [] []).2 := by
  have h := claim_C7 envC1 [] [] [goodFile] [] badFile "invalid syntax"
    rfl
  exact ⟨h.1, h.2 rfl rfl rfl⟩

/-- C2 (code bug): the self-exclusion invariant fails outside the
dynamic hook — in an environment where the tool is installed outside
the project root (so it classifies as third-party), the static scanner
collects `reqtracker` from a project file importing it, the pre-loaded
snapshot collects it from `sys.modules`, and a full run in the default
hybrid configuration returns it and writes it into the requirements
file; only the dynamic hook's `find_spec` ignores it. -/
theorem claim_C2 :
    "reqtracker" ∈
      (find_dependencies_static envBug envBug.files [] []).1 ∧
    "reqtracker" ∈ get_current_third_party_modules envBug [] ∧
    find_spec envBug [] [] "reqtracker.submod" = [] ∧
    (Reqtracker_track envBug cfgB st0).1.file_out
      = some ["reqtracker" ++ "\n", "requests" ++ "\n"] := by
  refine ⟨by decide, by decide, by decide, by decide⟩

/-- C1 counterexample: the mode does not gate discovery — with mode
`static` the prepare step still installs the import hook, and with
mode `dynamic` the finalize step still runs the static scanner, whose
result (`requests`, discoverable only statically here) reaches the
returned set. -/
theorem claim_C1_counterexample :
    cfgStatic.mode = "static" ∧
    (_prepare_tracking envC1 cfgStatic st0).1.tracker.finder ≠ none ∧
    cfgDynamic.mode = "dynamic" ∧
    (_finalize_tracking envC1 cfgDynamic st0).2 = .ok ["requests"] := by
  refine ⟨rfl, by decide, rfl, rfl⟩

/-- C1 (amended): the configured mode gates nothing — prepare and
finalize are unchanged under any change of mode, prepare always leaves
the Dynamic Tracker enabled (when its snapshot step does not raise),
and the finalize result is always the filtered union of the static
scan, the pre-loaded snapshot and the dynamically tracked set, for
every mode including `static` and `dynamic`. -/
theorem claim_C1 (env : PyEnv) (cfg : ReqtrackerConfig) (st : RunState)
    (m₁ m₂ : String) :
    (_prepare_tracking env { cfg with mode := m₁ } st
       = _prepare_tracking env { cfg with mode := m₂ } st) ∧
    (_finalize_tracking env { cfg with mode := m₁ } st
       = _finalize_tracking env { cfg with mode := m₂ } st) ∧
    (env.prep_fault = none →
       (_prepare_tracking env cfg st).1.tracker.finder ≠ none) ∧
    (env.fin_fault = none →
       (_finalize_tracking env cfg st).2 = .ok (filter_dependencies
         (setUnion (setUnion (setUnion []
            (find_dependencies_static env env.files cfg.ignore_paths
              cfg.exclude_modules).1)
            st.initial_loaded_modules) st.tracker.tracked)
         cfg.exclude_modules)) := by
  refine ⟨rfl, rfl, ?_, ?_⟩
  · intro hp
    unfold _prepare_tracking enable_dynamic_tracking
      clear_tracked_modules
    rw [hp]
    cases hf : st.tracker.finder <;> simp [hf]
  · intro hq
    unfold _finalize_tracking
    rw [hq]
    simp [get_tracked_modules, disable_tracked]

/-- C1 witness: the amended statement evaluated at concrete static and
dynamic configurations. -/
theorem claim_C1_witness :
    (_prepare_tracking envC1 { cfgB with mode := "static" } st0
       = _prepare_tracking envC1 { cfgB with mode := "dynamic" } st0) ∧
    (_prepare_tracking envC1 cfgStatic st0).1.tracker.finder ≠ none ∧
    (_finalize_tracking envC1 cfgDynamic st0).2
      = .ok (filter_dependencies
         (setUnion (setUnion (setUnion []
            (find_dependencies_static envC1 envC1.files
              cfgDynamic.ignore_paths cfgDynamic.exclude_modules).1)
            st0.initial_loaded_modules) st0.tracker.tracked)
         cfgDynamic.exclude_modules) := by
  exact ⟨(claim_C1 envC1 cfgB st0 "static" "dynamic").1,
         (claim_C1 envC1 cfgStatic st0 "x" "y").2.2.1 rfl,
         (claim_C1 envC1 cfgDynamic st0 "x" "y").2.2.2 rfl⟩

/-- C4 counterexample: disabling does not remove only this tool's hook
— with chain `[other 0]` at enable time and a hook `other 1` inserted
by other code afterwards, `disable` resets the chain to the snapshot
`[other 0]`, clobbering `other 1`. -/
theorem claim_C4_counterexample :
    MetaPathEntry.other 1 ∈
      ({ enable_dynamic_tracking ["proj"] [] st4 with
         meta_path := MetaPathEntry.other 1 ::
           (enable_dynamic_tracking ["proj"] [] st4).meta_path }
        : TrackerState).meta_path ∧
    MetaPathEntry.other 1 ∉
      (disable_dynamic_tracking
        { enable_dynamic_tracking ["proj"] [] st4 with
          meta_path := MetaPathEntry.other 1 ::
            (enable_dynamic_tracking ["proj"] [] st4).meta_path
          }).meta_path := by
  refine ⟨by decide, by decide⟩

/-- C4 (amended): `disable` removes the tool's hook but restores the
chain by replacing it wholesale with the snapshot taken at enable time
whenever the chain changed in between — from a state with no finder
installed, after enable and any front-insertions by other code,
disable leaves exactly the pre-enable chain, so the tool's hook is
gone but so is every hook others inserted after enable. -/
theorem claim_C4 (st : TrackerState) (root : PyPath)
    (ex : List String) (inserted : List MetaPathEntry)
    (h0 : st.finder = none)
    (h1 : MetaPathEntry.reqFinder root ex ∉ inserted) :
    (disable_dynamic_tracking
      { enable_dynamic_tracking root ex st with
        meta_path := inserted ++
          (enable_dynamic_tracking root ex st).meta_path }).meta_path
      = st.meta_path := by
  simp only [enable_dynamic_tracking, disable_dynamic_tracking, h0]
  rw [erase_append_of_not_mem _ _ _ h1, List.erase_cons_head]
  split
  · rfl
  · next hne => exact not_ne_iff.mp hne

/-- C4 witness: the amended statement at a concrete chain. -/
theorem claim_C4_witness :
    (disable_dynamic_tracking
      { enable_dynamic_tracking ["proj"] [] st4 with
        meta_path := [MetaPathEntry.other 1] ++
          (enable_dynamic_tracking ["proj"] [] st4).meta_path }).meta_path
      = st4.meta_path :=
  claim_C4 st4 ["proj"] [] [MetaPathEntry.other 1] rfl (by decide)

/-- C5: in every failure path of a run with an existing project root —
an exception raised during preparation or during finalization — the
run propagates a `ReqtrackerError` wrapped with the corresponding
operation context rather than returning anything, and the
process-wide import hook is removed before the error surfaces: from a
clean tracker state, the final state holds no finder and no
`reqFinder` entry anywhere in the import-hook chain. -/
theorem claim_C5 (env : PyEnv) (cfg : ReqtrackerConfig) (st : RunState)
    (hclean : cleanTracker st.tracker)
    (hroot : env.root_exists = true)
    (hfault : env.prep_fault ≠ none ∨ env.fin_fault ≠ none) :
    ∃ e, (Reqtracker_track env cfg st).2 = .error e ∧
      ((∃ m, e = ReqErr.duringPrep m) ∨
       (∃ m, e = ReqErr.duringFinal m)) ∧
      (Reqtracker_track env cfg st).1.tracker.finder = none ∧
      ∀ root ex, MetaPathEntry.reqFinder root ex ∉
        (Reqtracker_track env cfg st).1.tracker.meta_path := by
  obtain ⟨hf, ho, hm⟩ := hclean
  rcases hp : env.prep_fault with _ | e₁ <;>
    rcases hq : env.fin_fault with _ | e₂
  · rcases hfault with h | h
    · exact absurd hp h
    · exact absurd hq h
  · refine ⟨.duringFinal e₂, ?_, Or.inr ⟨e₂, rfl⟩, ?_, ?_⟩ <;>
      simp [Reqtracker_track, _prepare_tracking, _finalize_tracking,
        finalize_and_output, enable_dynamic_tracking,
        disable_dynamic_tracking, clear_tracked_modules, hp, hq, hroot,
        hf, ho, hm]
  · refine ⟨.duringPrep e₁, ?_, Or.inl ⟨e₁, rfl⟩, ?_, ?_⟩ <;>
      simp [Reqtracker_track, _prepare_tracking, _finalize_tracking,
        finalize_and_output, enable_dynamic_tracking,
        disable_dynamic_tracking, clear_tracked_modules, hp, hq, hroot,
        hf, ho, hm]
  · refine ⟨.duringFinal e₂, ?_, Or.inr ⟨e₂, rfl⟩, ?_, ?_⟩ <;>
      simp [Reqtracker_track, _prepare_tracking, _finalize_tracking,
        finalize_and_output, enable_dynamic_tracking,
        disable_dynamic_tracking, clear_tracked_modules, hp, hq, hroot,
        hf, ho, hm]

/-- C5 witness: the statement evaluated at a concrete environment whose
preparation step raises. -/
theorem claim_C5_witness :
    ∃ e, (Reqtracker_track envFault cfgB st0).2 = .error e ∧
      ((∃ m, e = ReqErr.duringPrep m) ∨
       (∃ m, e = ReqErr.duringFinal m)) ∧
      (Reqtracker_track envFault cfgB st0).1.tracker.finder = none ∧
      ∀ root ex, MetaPathEntry.reqFinder root ex ∉
        (Reqtracker_track envFault cfgB st0).1.tracker.meta_path :=
  claim_C5 envFault cfgB st0
    ⟨rfl, rfl, fun root ex => List.not_mem_nil _⟩ rfl
    (Or.inl (by decide))
